import Mathlib

/-!
Verification of the room-based WebRTC negotiation module (`js/webrtc.js`,
the "new connection logic" version) of the video-chat application.

The module is embedded shallowly: each method of the `WebRTC` object is
translated into a Lean function that returns the sequence of externally
visible actions (`Act`) the method performs, together with its result.
Asynchronous waits (ICE gathering, connection establishment) are modelled
by environments that record which events the platform delivers; an
`Option` result with value `none` means the awaited promise never settles.
The rendezvous store (Firebase `rooms/<key>/offer` and
`rooms/<key>/answer`) is a pair of optional session-description slots, and
`runStore` replays a trace of actions against it.
-/

/-- A session description record `{ sdp, type }` as written to the store. -/
structure Desc where
  sdp : String
  type : String
deriving DecidableEq, Repr

/-- States of the ICE gathering process (iceGatheringState). -/
inductive GatheringState where
  | new
  | gathering
  | complete
deriving DecidableEq, Repr

/-- States of the peer connection (connectionState). -/
inductive ConnState where
  | new
  | connecting
  | connected
  | disconnected
  | failed
  | closed
deriving DecidableEq, Repr

/-- Externally visible actions performed by the module, in program order. -/
inductive Act where
  | unsubOfferListener
  | unsubAnswerListener
  | cancelOnDisconnect
  | readOnceOffer
  | readOnceAnswer
  | pcCreateOffer
  | pcCreateAnswer
  | pcSetLocal (d : Desc)
  | pcSetRemote (d : Desc)
  | gatheringCompleted
  | storeWriteOffer (d : Desc)
  | storeWriteAnswer (d : Desc)
  | storeRemoveOffer
  | storeRemoveAnswer
  | registerOnDisconnectRemoveOffer
  | subscribeAnswerSlot
  | subscribeOfferSlot
  | connectedEstablished
  | showSnackbar (msg : String)
  | pcClose
  | stopLocalTracks
  | historyPushState
  | returnToWelcome
deriving DecidableEq, Repr

/-- The two slots of one room in the rendezvous store. -/
structure Store where
  offer : Option Desc
  answer : Option Desc
deriving DecidableEq, Repr

/-- Effect of one action on the store; non-store actions leave it unchanged. -/
def applyAct (s : Store) : Act → Store
  | Act.storeWriteOffer d => { s with offer := some d }
  | Act.storeWriteAnswer d => { s with answer := some d }
  | Act.storeRemoveOffer => { s with offer := none }
  | Act.storeRemoveAnswer => { s with answer := none }
  | _ => s

/-- Replay a trace of actions against a store state. -/
def runStore (s : Store) (tr : List Act) : Store := tr.foldl applyAct s

/-- Module-level mutable state: which listeners are registered
(`offerListener`, `answerListener`, `disconnectCleanup`), the current room
key, and whether a local media stream was acquired. -/
structure ModuleState where
  offerListenerActive : Bool
  answerListenerActive : Bool
  disconnectCleanupActive : Bool
  currentRoomKey : Option String
  hasLocalStream : Bool
deriving DecidableEq, Repr

/-- Which of `offerListener` / `answerListener` are active when
`handleReconnect` runs. -/
structure Listeners where
  offerListenerActive : Bool
  answerListenerActive : Bool
deriving DecidableEq, Repr

/-- Test for the complete gathering state, used by the gathering wait. -/
def isComplete : GatheringState → Bool
  | GatheringState.complete => true
  | _ => false

/-- Test for the connected state, used by checkConnection. -/
def isConnectedState : ConnState → Bool
  | ConnState.connected => true
  | _ => false

/-- Test for the failed state, used by checkConnection. -/
def isFailedState : ConnState → Bool
  | ConnState.failed => true
  | _ => false

/-- Platform environment for one `createOffer`/`createAnswer` call:
the `iceGatheringState` when the completion check runs, the subsequent
`icegatheringstatechange` notifications, and the local description the
engine produced (`peerConnection.localDescription`). -/
structure GatherEnv where
  stateAtCheck : GatheringState
  events : List GatheringState
  producedDesc : Desc
deriving DecidableEq, Repr

/-- The gathering wait resolves iff the state is already `complete` at the
check, or some later `icegatheringstatechange` notification observes
`complete`.  The code installs no timeout: otherwise the promise never
settles. -/
def gatheringResolves (env : GatherEnv) : Bool :=
  isComplete env.stateAtCheck || env.events.any isComplete

/-- Embedding of WebRTC.createOffer: create an offer, set it as local description,
then `await` gathering completion; returns `peerConnection.localDescription`.
The second component is `none` when the gathering wait never resolves. -/
def createOffer (env : GatherEnv) : List Act × Option Desc :=
  let pre := [Act.pcCreateOffer, Act.pcSetLocal env.producedDesc]
  if gatheringResolves env then
    (pre ++ [Act.gatheringCompleted], some env.producedDesc)
  else
    (pre, none)

/-- Embedding of WebRTC.createAnswer: apply the remote offer, create an answer, set it
as local description, then `await` gathering completion. -/
def createAnswer (env : GatherEnv) (offer : Desc) : List Act × Option Desc :=
  let pre := [Act.pcSetRemote offer, Act.pcCreateAnswer, Act.pcSetLocal env.producedDesc]
  if gatheringResolves env then
    (pre ++ [Act.gatheringCompleted], some env.producedDesc)
  else
    (pre, none)

/-- Result of the `connectToPeer` wait. -/
inductive ConnectOutcome where
  | connected
  | failed
  | timeout
deriving DecidableEq, Repr

/-- Environment for one `connectToPeer` call: the `connectionState` when
`checkConnection` first runs, and the later `connectionstatechange`
notifications as (time in ms, new state) pairs in arrival order. -/
structure ConnectEnv where
  stateAtCall : ConnState
  events : List (Nat × ConnState)
deriving DecidableEq, Repr

/-- Scan the connection-state notifications: the 10000 ms timer rejects
with `Connection timeout` unless a `connected` (resolve) or `failed`
(reject) state is observed first. -/
def connectDecide : List (Nat × ConnState) → ConnectOutcome × Nat
  | [] => (ConnectOutcome.timeout, 10000)
  | (t, s) :: rest =>
    if 10000 ≤ t then (ConnectOutcome.timeout, 10000)
    else if isConnectedState s then (ConnectOutcome.connected, t)
    else if isFailedState s then (ConnectOutcome.failed, t)
    else connectDecide rest

/-- Outcome and settle time of the `connectToPeer` promise: the immediate
`checkConnection()` call, then the event-driven scan against the timer. -/
def connectionWaitResult (cenv : ConnectEnv) : ConnectOutcome × Nat :=
  if isConnectedState cenv.stateAtCall then (ConnectOutcome.connected, 0)
  else if isFailedState cenv.stateAtCall then (ConnectOutcome.failed, 0)
  else connectDecide cenv.events

/-- Test for the connected outcome of the wait. -/
def isConnectedOutcome : ConnectOutcome → Bool
  | ConnectOutcome.connected => true
  | _ => false

/-- Outcomes that reject the `connectToPeer` promise (reported as failure). -/
def isFailureOutcome : ConnectOutcome → Bool
  | ConnectOutcome.connected => false
  | _ => true

/-- Embedding of WebRTC.connectToPeer: apply the remote description, then wait for the
connected state; the trace marks the moment the promise resolves connected. -/
def connectToPeer (cenv : ConnectEnv) (sd : Desc) : List Act × ConnectOutcome :=
  (Act.pcSetRemote sd ::
     (if isConnectedOutcome (connectionWaitResult cenv).1 then
        [Act.connectedEstablished]
      else []),
   (connectionWaitResult cenv).1)

/-- Body of `handleReconnect` up to arming: unsubscribe whichever of
`offerListener` / `answerListener` is set, then subscribe to the offer
slot (the renegotiation listener). -/
def handleReconnectArm (ls : Listeners) : List Act :=
  (if ls.offerListenerActive then [Act.unsubOfferListener] else []) ++
  (if ls.answerListenerActive then [Act.unsubAnswerListener] else []) ++
  [Act.subscribeOfferSlot]

/-- Embedding of WebRTC.scenario1_FreshStart: create a complete offer, write it to the
offer slot, register on-disconnect removal of the offer, subscribe to the
answer slot.  If the gathering wait never resolves, execution stops inside
`createOffer`. -/
def scenario1_FreshStart (genv : GatherEnv) : List Act :=
  match createOffer genv with
  | (tr, none) => tr
  | (tr, some offer) =>
    tr ++ [Act.storeWriteOffer offer,
           Act.registerOnDisconnectRemoveOffer,
           Act.subscribeAnswerSlot]

/-- Callback of the `answerListener` armed in scenario 1, applied to the
snapshot value it receives. -/
def answerListenerCallback (cenv : ConnectEnv) (ls : Listeners) :
    Option Desc → List Act
  | none => []
  | some answerData =>
    let c := connectToPeer cenv answerData
    c.1 ++
      (if isConnectedOutcome c.2 then
        [Act.storeRemoveOffer, Act.storeRemoveAnswer] ++ handleReconnectArm ls
      else
        [Act.showSnackbar "Connection failed"])

/-- Embedding of WebRTC.scenario2_SecondPeerJoins: create a complete answer for the
remote offer, write it to the answer slot, connect to the peer, and on
success arm the renegotiation listener (no store cleanup on this path). -/
def scenario2_SecondPeerJoins (genv : GatherEnv) (cenv : ConnectEnv)
    (ls : Listeners) (offer : Desc) : List Act :=
  match createAnswer genv offer with
  | (tr, none) => tr
  | (tr, some ans) =>
    let c := connectToPeer cenv offer
    tr ++ [Act.storeWriteAnswer ans] ++ c.1 ++
      (if isConnectedOutcome c.2 then
        handleReconnectArm ls
      else
        [Act.showSnackbar "Connection failed"])

/-- Embedding of WebRTC.scenario3_CleanupAndRestart: delete both slots, then run the
fresh-start branch. -/
def scenario3_CleanupAndRestart (genv : GatherEnv) : List Act :=
  [Act.storeRemoveOffer, Act.storeRemoveAnswer] ++ scenario1_FreshStart genv

/-- Callback of the renegotiation listener (`handleReconnect`), applied to
the offer-slot snapshot value it receives. -/
def offerListenerCallback (genv : GatherEnv) (cenv : ConnectEnv)
    (ls : Listeners) : Option Desc → List Act
  | none => []
  | some offerData =>
    match createAnswer genv offerData with
    | (tr, none) => tr
    | (tr, some ans) =>
      let c := connectToPeer cenv offerData
      tr ++ [Act.storeWriteAnswer ans] ++ c.1 ++
        (if isConnectedOutcome c.2 then
          [Act.storeRemoveOffer, Act.storeRemoveAnswer] ++ handleReconnectArm ls
        else
          [Act.showSnackbar "Reconnection failed"])

/-- Embedding of WebRTC.cleanup: unsubscribe and null whichever listeners are set and
cancel the on-disconnect registration. -/
def cleanupTrace (st : ModuleState) : List Act :=
  (if st.offerListenerActive then [Act.unsubOfferListener] else []) ++
  (if st.answerListenerActive then [Act.unsubAnswerListener] else []) ++
  (if st.disconnectCleanupActive then [Act.cancelOnDisconnect] else [])

/-- The four-way branch of `startConnection` on the two snapshot values. -/
inductive Branch where
  | freshStart
  | secondPeerJoins
  | cleanupAndRestart
  | noBranch
deriving DecidableEq, Repr

/-- Classification of the one-shot reads in `startConnection`:
`offer == null && answer == null`, `offer != null && answer == null`,
`offer != null && answer != null`; any other combination falls through. -/
def classify : Option Desc → Option Desc → Branch
  | none, none => Branch.freshStart
  | some _, none => Branch.secondPeerJoins
  | some _, some _ => Branch.cleanupAndRestart
  | none, some _ => Branch.noBranch

/-- Embedding of WebRTC.startConnection: clean up existing listeners, read both slots
once, and dispatch on the classification. -/
def startConnection (st : ModuleState) (genv : GatherEnv) (cenv : ConnectEnv)
    (offer answer : Option Desc) : List Act :=
  cleanupTrace st ++ [Act.readOnceOffer, Act.readOnceAnswer] ++
    (match offer, answer with
     | none, none => scenario1_FreshStart genv
     | some o, none => scenario2_SecondPeerJoins genv cenv ⟨false, false⟩ o
     | some _, some _ => scenario3_CleanupAndRestart genv
     | none, some _ => [])

/-- Embedding of WebRTC.endCall: cleanup, delete both slots of the current room (when
one is set), close the peer connection, stop local tracks (when a stream
was acquired), clear the URL, return to the welcome screen. -/
def endCall (st : ModuleState) : List Act :=
  cleanupTrace st ++
  (match st.currentRoomKey with
   | some _ => [Act.storeRemoveOffer, Act.storeRemoveAnswer]
   | none => []) ++
  [Act.pcClose] ++
  (if st.hasLocalStream then [Act.stopLocalTracks] else []) ++
  [Act.historyPushState, Act.returnToWelcome]

/-- Embedding of generateRoomKey: the template string `sharedSecret-sharedMemory`
with both parts trimmed. -/
def generateRoomKey (sharedSecret sharedMemory : String) : String :=
  sharedSecret.trim ++ "-" ++ sharedMemory.trim

/-- A media track (only its `kind` matters to `updateVideoTrack`). -/
structure TrackInfo where
  kind : String
deriving DecidableEq, Repr

/-- An `RTCRtpSender` as seen by `updateVideoTrack`: its current track. -/
structure Sender where
  track : Option TrackInfo
deriving DecidableEq, Repr

/-- Test whether a sender currently carries a video track. -/
def isVideoSender (s : Sender) : Bool :=
  match s.track with
  | some t => decide (t.kind = "video")
  | none => false

/-- Effect of replaceTrack with the new video track on the first video sender. -/
def replaceFirstVideo : List Sender → TrackInfo → List Sender
  | [], _ => []
  | s :: rest, nt =>
    if isVideoSender s then { s with track := some nt } :: rest
    else s :: replaceFirstVideo rest nt

/-- Embedding of WebRTC.updateVideoTrack: find the first sender with a video track and
replace its track; when no such sender exists, do nothing. -/
def updateVideoTrack (senders : List Sender) (newTrack : TrackInfo) : List Sender :=
  match senders.find? isVideoSender with
  | some _ => replaceFirstVideo senders newTrack
  | none => senders

/-- Test for acts that write a session description to the store. -/
def isDescWrite : Act → Bool
  | Act.storeWriteOffer _ => true
  | Act.storeWriteAnswer _ => true
  | _ => false

/-- Test for the gathering-complete marker in a trace. -/
def isGatherComplete : Act → Bool
  | Act.gatheringCompleted => true
  | _ => false

/-- Test for the connection-resolved marker in a trace. -/
def isConnectedMark : Act → Bool
  | Act.connectedEstablished => true
  | _ => false

/-- Test for arming the renegotiation listener (offer-slot subscription). -/
def isReconnectArm : Act → Bool
  | Act.subscribeOfferSlot => true
  | _ => false

/-- Test for deleting the offer slot. -/
def isRemoveOfferAct : Act → Bool
  | Act.storeRemoveOffer => true
  | _ => false

/-- Test for deleting the answer slot. -/
def isRemoveAnswerAct : Act → Bool
  | Act.storeRemoveAnswer => true
  | _ => false

/-- Auxiliary scan: true when every act satisfying `isEvt` is preceded (in
the remaining list, or by `seen` from the part already scanned) by an act
satisfying `isGuard`. -/
def guardedByAux (isEvt isGuard : Act → Bool) : Bool → List Act → Bool
  | _, [] => true
  | seen, a :: rest =>
    (!isEvt a || seen) && guardedByAux isEvt isGuard (seen || isGuard a) rest

/-- In trace `tr`, every act satisfying `isEvt` has an earlier act
satisfying `isGuard`. -/
def guardedBy (isEvt isGuard : Act → Bool) (tr : List Act) : Bool :=
  guardedByAux isEvt isGuard false tr

/-- Store contents at the moment the renegotiation listener is armed (the
first offer-slot subscription of the trace), or `none` if it never is. -/
def storeWhenReconnectArmed (s : Store) : List Act → Option Store
  | [] => none
  | Act.subscribeOfferSlot :: _ => some s
  | a :: rest => storeWhenReconnectArmed (applyAct s a) rest

/-- Whether the connection reaches the connected state strictly before
`bound` ms (or was already connected at the initial check). -/
def reachesConnectedBy (cenv : ConnectEnv) (bound : Nat) : Bool :=
  isConnectedState cenv.stateAtCall ||
    cenv.events.any (fun e => isConnectedState e.2 && decide (e.1 < bound))

/-- Test for the listener-unsubscribe acts. -/
def isUnsubAct : Act → Bool
  | Act.unsubOfferListener => true
  | Act.unsubAnswerListener => true
  | _ => false

/-- Test for closing the peer connection. -/
def isPcCloseAct : Act → Bool
  | Act.pcClose => true
  | _ => false

/-- Auxiliary scan: true when no act satisfying `isA` occurs at or after a
point where an act satisfying `isB` has already occurred. -/
def neverAfterAux (isA isB : Act → Bool) : Bool → List Act → Bool
  | _, [] => true
  | seen, a :: rest =>
    (!isA a || !seen) && neverAfterAux isA isB (seen || isB a) rest

/-- In trace `tr`, no act satisfying `isA` occurs after an act satisfying
`isB`. -/
def neverAfter (isA isB : Act → Bool) (tr : List Act) : Bool :=
  neverAfterAux isA isB false tr

/-- Claim C9: for all inputs, `generateRoomKey` equals the concatenation of
the trimmed secret, a hyphen, and the trimmed memory; two input pairs whose
components differ only in leading/trailing whitespace map to the same room
key, and distinct pairs can collide when an input itself contains a hyphen,
witnessed by the pairs (a-b, c) and (a, b-c). -/
theorem claim_C9_roomKey_trim_hyphen_join (s m s1 m1 : String)
    (hs : s.trim = s1.trim) (hm : m.trim = m1.trim) :
    generateRoomKey s m = s.trim ++ "-" ++ m.trim
    ∧ generateRoomKey s m = generateRoomKey s1 m1
    ∧ generateRoomKey "a-b" "c" = generateRoomKey "a" "b-c"
    ∧ ("a-b", "c") ≠ (("a", "b-c") : String × String) := by
  have h1 : ("a-b").trim = "a-b" := by
    simp +decide [String.trim, Substring.trim, String.toSubstring,
      Substring.takeWhileAux, Substring.takeRightWhileAux, Substring.toString,
      String.extract]
  have h2 : ("c").trim = "c" := by
    simp +decide [String.trim, Substring.trim, String.toSubstring,
      Substring.takeWhileAux, Substring.takeRightWhileAux, Substring.toString,
      String.extract]
  have h3 : ("a").trim = "a" := by
    simp +decide [String.trim, Substring.trim, String.toSubstring,
      Substring.takeWhileAux, Substring.takeRightWhileAux, Substring.toString,
      String.extract]
  have h4 : ("b-c").trim = "b-c" := by
    simp +decide [String.trim, Substring.trim, String.toSubstring,
      Substring.takeWhileAux, Substring.takeRightWhileAux, Substring.toString,
      String.extract]
  refine ⟨rfl, ?_, ?_, by decide⟩
  · simp only [generateRoomKey, hs, hm]
  · simp only [generateRoomKey, h1, h2, h3, h4]
    decide

/-- Witness for claim C9 at concrete inputs differing only in whitespace. -/
theorem claim_C9_roomKey_trim_hyphen_join_witness :
    generateRoomKey " a " "b " = generateRoomKey "a" "b" :=
  (claim_C9_roomKey_trim_hyphen_join " a " "b " "a" "b"
    (by
      simp +decide [String.trim, Substring.trim, String.toSubstring,
        Substring.takeWhileAux, Substring.takeRightWhileAux, Substring.toString,
        String.extract])
    (by
      simp +decide [String.trim, Substring.trim, String.toSubstring,
        Substring.takeWhileAux, Substring.takeRightWhileAux, Substring.toString,
        String.extract])).2.1

/-- Claim C10: when no sender currently carries a video track,
`updateVideoTrack` returns with the sender list unchanged: nothing is
replaced or added. -/
theorem claim_C10_updateVideoTrack_noop (senders : List Sender) (nt : TrackInfo)
    (h : ∀ s ∈ senders, isVideoSender s = false) :
    updateVideoTrack senders nt = senders := by
  have hf : senders.find? isVideoSender = none := by
    rw [List.find?_eq_none]
    intro x hx
    simp [h x hx]
  simp [updateVideoTrack, hf]

/-- Witness for claim C10: an audio-only sender and a trackless sender. -/
theorem claim_C10_updateVideoTrack_noop_witness :
    updateVideoTrack [⟨some ⟨"audio"⟩⟩, ⟨none⟩] ⟨"video"⟩ =
      [⟨some ⟨"audio"⟩⟩, ⟨none⟩] :=
  claim_C10_updateVideoTrack_noop _ _ (by decide)

/-- Counterexample to claim C6: with ICE gathering stuck (state `gathering`
at the check and no completion notification ever delivered), both create
calls never settle — the result is `none`, i.e. the awaited promise neither
returns nor fails; no bounded timeout fires and no GatheringTimeout
condition exists in the code. -/
theorem claim_C6_counterexample :
    (createOffer ⟨GatheringState.gathering, [GatheringState.gathering],
        ⟨"v=0", "offer"⟩⟩).2 = none
    ∧ (createAnswer ⟨GatheringState.gathering, [GatheringState.gathering],
        ⟨"v=0", "answer"⟩⟩ ⟨"v=0", "offer"⟩).2 = none := by
  decide

/-- Claim C6 (amended): `createOffer` and `createAnswer` wait for ICE
gathering with no timeout at all — each call returns exactly when the
gathering-complete condition is observed, and if gathering never reaches
the complete state the call never settles (it waits forever; no
GatheringTimeout condition is ever produced). -/
theorem claim_C6_create_waits_forever (genv : GatherEnv) (o : Desc) :
    ((createOffer genv).2 = none ↔ gatheringResolves genv = false)
    ∧ ((createAnswer genv o).2 = none ↔ gatheringResolves genv = false) := by
  cases hg : gatheringResolves genv <;> simp [createOffer, createAnswer, hg]

/-- Witness for the amended claim C6 at a concrete stuck environment. -/
theorem claim_C6_create_waits_forever_witness :
    (createOffer ⟨GatheringState.gathering, [], ⟨"v=0", "offer"⟩⟩).2 = none :=
  (claim_C6_create_waits_forever ⟨GatheringState.gathering, [], ⟨"v=0", "offer"⟩⟩
    ⟨"v=0", "offer"⟩).1.mpr (by decide)

/-- The event scan of the connection wait settles within the 10000 ms
timer bound. -/
theorem connectDecide_time_le (evs : List (Nat × ConnState)) :
    (connectDecide evs).2 ≤ 10000 := by
  induction evs with
  | nil => simp [connectDecide]
  | cons e rest ih =>
    obtain ⟨t, s⟩ := e
    by_cases h1 : 10000 ≤ t
    · simp [connectDecide, h1]
    · by_cases h2 : isConnectedState s = true
      · simp [connectDecide, h1, h2]
        exact le_of_lt (not_le.mp h1)
      · by_cases h3 : isFailedState s = true
        · simp [connectDecide, h1, h2, h3]
          exact le_of_lt (not_le.mp h1)
        · simpa [connectDecide, h1, h2, h3] using ih

/-- If the event scan resolves connected, some notification delivered the
connected state strictly before the 10000 ms timer. -/
theorem connectDecide_connected_mem (evs : List (Nat × ConnState))
    (h : (connectDecide evs).1 = ConnectOutcome.connected) :
    evs.any (fun e => isConnectedState e.2 && decide (e.1 < 10000)) = true := by
  induction evs with
  | nil => simp [connectDecide] at h
  | cons e rest ih =>
    obtain ⟨t, s⟩ := e
    by_cases h1 : 10000 ≤ t
    · simp [connectDecide, h1] at h
    · by_cases h2 : isConnectedState s = true
      · simp [h2, not_le.mp h1]
      · by_cases h3 : isFailedState s = true
        · simp [connectDecide, h1, h2, h3] at h
        · simp [connectDecide, h1, h2, h3] at h
          simp [ih h]

/-- Claim C7: the wait for connection establishment in `connectToPeer`
always settles within the 10000 ms timer; whenever the outcome is not
connected it is a rejection (reported as a failure to the caller), and in
particular if the connection does not reach the connected state within the
bound the wait ends in a failure rather than hanging. -/
theorem claim_C7_bounded_connect_wait (cenv : ConnectEnv) (sd : Desc) :
    (connectionWaitResult cenv).2 ≤ 10000
    ∧ ((connectionWaitResult cenv).1 ≠ ConnectOutcome.connected →
        isFailureOutcome (connectionWaitResult cenv).1 = true)
    ∧ (reachesConnectedBy cenv 10000 = false →
        isFailureOutcome (connectionWaitResult cenv).1 = true)
    ∧ (connectToPeer cenv sd).2 = (connectionWaitResult cenv).1 := by
  refine ⟨?_, ?_, ?_, rfl⟩
  · by_cases hC : isConnectedState cenv.stateAtCall = true
    · simp [connectionWaitResult, hC]
    · by_cases hF : isFailedState cenv.stateAtCall = true
      · simp [connectionWaitResult, hC, hF]
      · simpa [connectionWaitResult, hC, hF] using connectDecide_time_le cenv.events
  · intro hne
    cases hout : (connectionWaitResult cenv).1 <;>
      simp [isFailureOutcome, hout] at hne ⊢
  · intro hr
    by_cases hC : isConnectedState cenv.stateAtCall = true
    · simp [reachesConnectedBy, hC] at hr
    · by_cases hF : isFailedState cenv.stateAtCall = true
      · simp [connectionWaitResult, hC, hF, isFailureOutcome]
      · have hout : (connectionWaitResult cenv).1 = (connectDecide cenv.events).1 := by
          simp [connectionWaitResult, hC, hF]
        rw [hout]
        cases hd : (connectDecide cenv.events).1
        · have hmem := connectDecide_connected_mem cenv.events hd
          rw [reachesConnectedBy] at hr
          simp [hC] at hr
          rcases List.any_eq_true.mp hmem with ⟨e, he, hp⟩
          rw [Bool.and_eq_true, decide_eq_true_iff] at hp
          have hge := hr e.1 e.2 (by simpa using he) hp.1
          exact absurd hp.2 (not_lt.mpr hge)
        · simp [isFailureOutcome]
        · simp [isFailureOutcome]

/-- Witness for claim C7: a connection that only reaches connected after
the timer has fired is reported as a failure within the bound. -/
theorem claim_C7_bounded_connect_wait_witness :
    (connectionWaitResult ⟨ConnState.connecting, [(20000, ConnState.connected)]⟩).2 ≤ 10000
    ∧ isFailureOutcome
        (connectionWaitResult ⟨ConnState.connecting, [(20000, ConnState.connected)]⟩).1 = true :=
  ⟨(claim_C7_bounded_connect_wait ⟨ConnState.connecting, [(20000, ConnState.connected)]⟩
      ⟨"v=0", "answer"⟩).1,
   (claim_C7_bounded_connect_wait ⟨ConnState.connecting, [(20000, ConnState.connected)]⟩
      ⟨"v=0", "answer"⟩).2.2.1 (by decide)⟩

/-- Claim C1: after the one-shot non-subscribing reads, a peer that finds
both slots absent becomes Initiator — its trace is exactly cleanup, the two
reads, offer creation completing gathering, the offer-slot write, the
on-disconnect registration, and the answer-slot subscription; a peer that
finds an offer and no answer becomes Responder — it applies the remote
offer, creates a complete answer and writes it to the answer slot, it never
subscribes to the answer slot, and it subscribes to nothing before the
connection is established. -/
theorem claim_C1_startup_role_assignment (st : ModuleState) (genv : GatherEnv)
    (cenv : ConnectEnv) (o : Desc) (hg : gatheringResolves genv = true) :
    classify none none = Branch.freshStart
    ∧ classify (some o) none = Branch.secondPeerJoins
    ∧ startConnection st genv cenv none none =
        cleanupTrace st ++
        [Act.readOnceOffer, Act.readOnceAnswer,
         Act.pcCreateOffer, Act.pcSetLocal genv.producedDesc, Act.gatheringCompleted,
         Act.storeWriteOffer genv.producedDesc, Act.registerOnDisconnectRemoveOffer,
         Act.subscribeAnswerSlot]
    ∧ (∃ tail,
        startConnection st genv cenv (some o) none =
          cleanupTrace st ++
          [Act.readOnceOffer, Act.readOnceAnswer,
           Act.pcSetRemote o, Act.pcCreateAnswer, Act.pcSetLocal genv.producedDesc,
           Act.gatheringCompleted, Act.storeWriteAnswer genv.producedDesc,
           Act.pcSetRemote o] ++ tail)
    ∧ Act.subscribeAnswerSlot ∉ startConnection st genv cenv (some o) none
    ∧ guardedBy isReconnectArm isConnectedMark
        (startConnection st genv cenv (some o) none) = true := by
  obtain ⟨ol, al, dc, rk, hs⟩ := st
  refine ⟨rfl, rfl, ?_, ?_, ?_, ?_⟩
  · simp [startConnection, scenario1_FreshStart, createOffer, hg, cleanupTrace]
  · cases hout : isConnectedOutcome (connectionWaitResult cenv).1
    · exact ⟨[Act.showSnackbar "Connection failed"], by
        simp [startConnection, scenario2_SecondPeerJoins, createAnswer, hg,
          connectToPeer, hout, cleanupTrace]⟩
    · exact ⟨Act.connectedEstablished :: handleReconnectArm ⟨false, false⟩, by
        simp [startConnection, scenario2_SecondPeerJoins, createAnswer, hg,
          connectToPeer, hout, cleanupTrace]⟩
  · cases ol <;> cases al <;> cases dc <;>
      cases hout : isConnectedOutcome (connectionWaitResult cenv).1 <;>
      simp [startConnection, scenario2_SecondPeerJoins, createAnswer, hg,
        connectToPeer, hout, cleanupTrace, handleReconnectArm]
  · cases ol <;> cases al <;> cases dc <;>
      cases hout : isConnectedOutcome (connectionWaitResult cenv).1 <;>
      simp [startConnection, scenario2_SecondPeerJoins, createAnswer, hg,
        connectToPeer, hout, cleanupTrace, handleReconnectArm, guardedBy,
        guardedByAux, isReconnectArm, isConnectedMark]

/-- Witness for claim C1 at a concrete environment whose gathering is
already complete. -/
theorem claim_C1_startup_role_assignment_witness :
    gatheringResolves ⟨GatheringState.complete, [], ⟨"v=0", "offer"⟩⟩ = true
    ∧ classify none none = Branch.freshStart :=
  ⟨by decide,
   (claim_C1_startup_role_assignment ⟨false, false, false, none, false⟩
      ⟨GatheringState.complete, [], ⟨"v=0", "offer"⟩⟩ ⟨ConnState.new, []⟩
      ⟨"v=0", "offer"⟩ (by decide)).1⟩

/-- Claim C2: a startup read that finds both slots present deletes both
slots and then re-enters the fresh-room branch (the trace is exactly
cleanup, the reads, the two deletes, then `scenario1_FreshStart`, which
writes a new offer once gathering completes); classification never takes
the Responder branch, the trace writes no answer, the stale answer value is
never applied as a remote description, the answer slot ends empty, and the
immediate snapshot delivered to the freshly armed answer listener (the
empty slot) is a no-op. -/
theorem claim_C2_stale_room_restart (st : ModuleState) (genv : GatherEnv)
    (cenv : ConnectEnv) (ls : Listeners) (o a : Desc) :
    startConnection st genv cenv (some o) (some a) =
      cleanupTrace st ++
      [Act.readOnceOffer, Act.readOnceAnswer,
       Act.storeRemoveOffer, Act.storeRemoveAnswer] ++ scenario1_FreshStart genv
    ∧ classify (some o) (some a) = Branch.cleanupAndRestart
    ∧ classify (some o) (some a) ≠ Branch.secondPeerJoins
    ∧ Act.pcSetRemote a ∉ startConnection st genv cenv (some o) (some a)
    ∧ (∀ d, Act.storeWriteAnswer d ∉ startConnection st genv cenv (some o) (some a))
    ∧ (gatheringResolves genv = true →
        Act.storeWriteOffer genv.producedDesc ∈
          startConnection st genv cenv (some o) (some a))
    ∧ (runStore ⟨some o, some a⟩
        (startConnection st genv cenv (some o) (some a))).answer = none
    ∧ answerListenerCallback cenv ls none = [] := by
  obtain ⟨ol, al, dc, rk, hs⟩ := st
  refine ⟨?_, rfl, by simp [classify], ?_, ?_, ?_, ?_, rfl⟩
  · simp [startConnection, scenario3_CleanupAndRestart, cleanupTrace]
  · cases ol <;> cases al <;> cases dc <;>
      cases hg : gatheringResolves genv <;>
      simp [startConnection, scenario3_CleanupAndRestart, scenario1_FreshStart,
        createOffer, hg, cleanupTrace]
  · intro d
    cases ol <;> cases al <;> cases dc <;>
      cases hg : gatheringResolves genv <;>
      simp [startConnection, scenario3_CleanupAndRestart, scenario1_FreshStart,
        createOffer, hg, cleanupTrace]
  · intro hg
    cases ol <;> cases al <;> cases dc <;>
      simp [startConnection, scenario3_CleanupAndRestart, scenario1_FreshStart,
        createOffer, hg, cleanupTrace]
  · cases ol <;> cases al <;> cases dc <;>
      cases hg : gatheringResolves genv <;>
      simp [startConnection, scenario3_CleanupAndRestart, scenario1_FreshStart,
        createOffer, hg, cleanupTrace, runStore, applyAct]

/-- Witness for claim C2 at a concrete stale room. -/
theorem claim_C2_stale_room_restart_witness :
    gatheringResolves ⟨GatheringState.complete, [], ⟨"v=2", "offer"⟩⟩ = true
    ∧ Act.storeWriteOffer ⟨"v=2", "offer"⟩ ∈
        startConnection ⟨false, false, false, none, false⟩
          ⟨GatheringState.complete, [], ⟨"v=2", "offer"⟩⟩ ⟨ConnState.new, []⟩
          (some ⟨"v=0", "offer"⟩) (some ⟨"v=1", "answer"⟩) :=
  ⟨by decide,
   (claim_C2_stale_room_restart ⟨false, false, false, none, false⟩
      ⟨GatheringState.complete, [], ⟨"v=2", "offer"⟩⟩ ⟨ConnState.new, []⟩
      ⟨false, false⟩ ⟨"v=0", "offer"⟩ ⟨"v=1", "answer"⟩).2.2.2.2.2.1 (by decide)⟩

/-- Counterexample to claim C3: a Responder execution (offer present,
answer absent at the reads) that reaches the connected state.  The
execution contains the connected transition, yet at the moment the
renegotiation listener is armed the store still holds both the remote
offer and the answer this peer wrote — nothing was deleted before arming
(deletion happens only on the Initiator side). -/
theorem claim_C3_counterexample :
    Act.connectedEstablished ∈
      startConnection ⟨false, false, false, none, false⟩
        ⟨GatheringState.complete, [], ⟨"sdpA", "answer"⟩⟩
        ⟨ConnState.connecting, [(100, ConnState.connected)]⟩
        (some ⟨"sdpO", "offer"⟩) none
    ∧ storeWhenReconnectArmed ⟨some ⟨"sdpO", "offer"⟩, none⟩
        (startConnection ⟨false, false, false, none, false⟩
          ⟨GatheringState.complete, [], ⟨"sdpA", "answer"⟩⟩
          ⟨ConnState.connecting, [(100, ConnState.connected)]⟩
          (some ⟨"sdpO", "offer"⟩) none) =
      some ⟨some ⟨"sdpO", "offer"⟩, some ⟨"sdpA", "answer"⟩⟩ := by
  decide

/-- Claim C3 (amended): the renegotiation listener is never armed before
the connection reaches the connected state, on any code path; on the
Initiator path (the answer-listener callback) both slots are deleted after
the connected transition and before the listener is armed; but on the
Responder path the listener is armed after connecting without this peer
deleting either slot. -/
theorem claim_C3_reconnect_listener_arming (st : ModuleState) (genv : GatherEnv)
    (cenv : ConnectEnv) (ls : Listeners) (o a v : Option Desc) (oD : Desc)
    (hg : gatheringResolves genv = true)
    (hc : isConnectedOutcome (connectionWaitResult cenv).1 = true) :
    guardedBy isReconnectArm isConnectedMark (startConnection st genv cenv o a) = true
    ∧ guardedBy isReconnectArm isConnectedMark (answerListenerCallback cenv ls v) = true
    ∧ guardedBy isReconnectArm isConnectedMark (offerListenerCallback genv cenv ls v) = true
    ∧ guardedBy isReconnectArm isRemoveOfferAct (answerListenerCallback cenv ls v) = true
    ∧ guardedBy isReconnectArm isRemoveAnswerAct (answerListenerCallback cenv ls v) = true
    ∧ Act.subscribeOfferSlot ∈ scenario2_SecondPeerJoins genv cenv ⟨false, false⟩ oD
    ∧ Act.storeRemoveOffer ∉ scenario2_SecondPeerJoins genv cenv ⟨false, false⟩ oD
    ∧ Act.storeRemoveAnswer ∉ scenario2_SecondPeerJoins genv cenv ⟨false, false⟩ oD := by
  obtain ⟨ol, al, dc, rk, hs⟩ := st
  obtain ⟨lo, la⟩ := ls
  refine ⟨?_, ?_, ?_, ?_, ?_, ?_, ?_, ?_⟩
  · cases o <;> cases a <;> cases ol <;> cases al <;> cases dc <;>
      cases hout : isConnectedOutcome (connectionWaitResult cenv).1 <;>
      simp [startConnection, scenario1_FreshStart, scenario2_SecondPeerJoins,
        scenario3_CleanupAndRestart, createOffer, createAnswer, hg, connectToPeer,
        hout, cleanupTrace, handleReconnectArm, guardedBy, guardedByAux,
        isReconnectArm, isConnectedMark]
  · cases v <;> cases lo <;> cases la <;>
      cases hout : isConnectedOutcome (connectionWaitResult cenv).1 <;>
      simp [answerListenerCallback, connectToPeer, hout, handleReconnectArm,
        guardedBy, guardedByAux, isReconnectArm, isConnectedMark]
  · cases v <;> cases lo <;> cases la <;>
      cases hout : isConnectedOutcome (connectionWaitResult cenv).1 <;>
      cases hgg : gatheringResolves genv <;>
      simp [offerListenerCallback, createAnswer, hgg, connectToPeer, hout,
        handleReconnectArm, guardedBy, guardedByAux, isReconnectArm,
        isConnectedMark]
  · cases v <;> cases lo <;> cases la <;>
      cases hout : isConnectedOutcome (connectionWaitResult cenv).1 <;>
      simp [answerListenerCallback, connectToPeer, hout, handleReconnectArm,
        guardedBy, guardedByAux, isReconnectArm, isRemoveOfferAct]
  · cases v <;> cases lo <;> cases la <;>
      cases hout : isConnectedOutcome (connectionWaitResult cenv).1 <;>
      simp [answerListenerCallback, connectToPeer, hout, handleReconnectArm,
        guardedBy, guardedByAux, isReconnectArm, isRemoveAnswerAct]
  · simp [scenario2_SecondPeerJoins, createAnswer, hg, connectToPeer, hc,
      handleReconnectArm]
  · simp [scenario2_SecondPeerJoins, createAnswer, hg, connectToPeer, hc,
      handleReconnectArm]
  · simp [scenario2_SecondPeerJoins, createAnswer, hg, connectToPeer, hc,
      handleReconnectArm]

/-- Witness for the amended claim C3 at a concrete connected environment. -/
theorem claim_C3_reconnect_listener_arming_witness :
    Act.subscribeOfferSlot ∈
      scenario2_SecondPeerJoins ⟨GatheringState.complete, [], ⟨"sdpA", "answer"⟩⟩
        ⟨ConnState.connected, []⟩ ⟨false, false⟩ ⟨"sdpO", "offer"⟩ :=
  (claim_C3_reconnect_listener_arming ⟨false, false, false, none, false⟩
    ⟨GatheringState.complete, [], ⟨"sdpA", "answer"⟩⟩ ⟨ConnState.connected, []⟩
    ⟨false, false⟩ none none none ⟨"sdpO", "offer"⟩
    (by decide) (by decide)).2.2.2.2.2.1

/-- Claim C4: a peer in the post-connect listening state that receives a
new non-null offer becomes Responder for that round: it applies the remote
offer, creates a complete answer, writes it to the answer slot, connects,
performs the post-connect cleanup (deletes both slots), and re-arms the
same renegotiation listener (an offer-slot subscription); a null snapshot
is a no-op. -/
theorem claim_C4_reconnect_round (genv : GatherEnv) (cenv : ConnectEnv)
    (ls : Listeners) (o : Desc)
    (hg : gatheringResolves genv = true)
    (hc : isConnectedOutcome (connectionWaitResult cenv).1 = true) :
    offerListenerCallback genv cenv ls (some o) =
      [Act.pcSetRemote o, Act.pcCreateAnswer, Act.pcSetLocal genv.producedDesc,
       Act.gatheringCompleted, Act.storeWriteAnswer genv.producedDesc,
       Act.pcSetRemote o, Act.connectedEstablished,
       Act.storeRemoveOffer, Act.storeRemoveAnswer] ++ handleReconnectArm ls
    ∧ Act.subscribeOfferSlot ∈ handleReconnectArm ls
    ∧ offerListenerCallback genv cenv ls none = [] := by
  obtain ⟨lo, la⟩ := ls
  refine ⟨?_, ?_, rfl⟩
  · simp [offerListenerCallback, createAnswer, hg, connectToPeer, hc]
  · cases lo <;> cases la <;> simp [handleReconnectArm]

/-- Witness for claim C4 at a concrete connected environment. -/
theorem claim_C4_reconnect_round_witness :
    offerListenerCallback ⟨GatheringState.complete, [], ⟨"sdpB", "answer"⟩⟩
      ⟨ConnState.connected, []⟩ ⟨true, false⟩ none = [] :=
  (claim_C4_reconnect_round ⟨GatheringState.complete, [], ⟨"sdpB", "answer"⟩⟩
    ⟨ConnState.connected, []⟩ ⟨true, false⟩ ⟨"sdpO", "offer"⟩
    (by decide) (by decide)).2.2

/-- Claim C5: no execution writes a session description to a store slot
before the gathering-complete condition has been observed — in every trace
each description write is preceded by the gathering-completed marker (the
point at which the corresponding create call returns); the create calls
return a description only when gathering resolves complete, and when the
gathering wait never resolves the trace contains no description write at
all. -/
theorem claim_C5_complete_descriptions_only (st : ModuleState) (genv : GatherEnv)
    (cenv : ConnectEnv) (ls : Listeners) (o a v : Option Desc) (d : Desc) :
    guardedBy isDescWrite isGatherComplete (startConnection st genv cenv o a) = true
    ∧ guardedBy isDescWrite isGatherComplete (answerListenerCallback cenv ls v) = true
    ∧ guardedBy isDescWrite isGatherComplete (offerListenerCallback genv cenv ls v) = true
    ∧ ((createOffer genv).2.isSome = true → gatheringResolves genv = true)
    ∧ ((createAnswer genv d).2.isSome = true → gatheringResolves genv = true)
    ∧ (gatheringResolves genv = false →
        ∀ e, Act.storeWriteOffer e ∉ startConnection st genv cenv o a
          ∧ Act.storeWriteAnswer e ∉ startConnection st genv cenv o a) := by
  obtain ⟨ol, al, dc, rk, hs⟩ := st
  obtain ⟨lo, la⟩ := ls
  refine ⟨?_, ?_, ?_, ?_, ?_, ?_⟩
  · cases o <;> cases a <;> cases ol <;> cases al <;> cases dc <;>
      cases hg : gatheringResolves genv <;>
      cases hout : isConnectedOutcome (connectionWaitResult cenv).1 <;>
      simp [startConnection, scenario1_FreshStart, scenario2_SecondPeerJoins,
        scenario3_CleanupAndRestart, createOffer, createAnswer, hg, connectToPeer,
        hout, cleanupTrace, handleReconnectArm, guardedBy, guardedByAux,
        isDescWrite, isGatherComplete]
  · cases v <;> cases lo <;> cases la <;>
      cases hout : isConnectedOutcome (connectionWaitResult cenv).1 <;>
      simp [answerListenerCallback, connectToPeer, hout, handleReconnectArm,
        guardedBy, guardedByAux, isDescWrite, isGatherComplete]
  · cases v <;> cases lo <;> cases la <;>
      cases hg : gatheringResolves genv <;>
      cases hout : isConnectedOutcome (connectionWaitResult cenv).1 <;>
      simp [offerListenerCallback, createAnswer, hg, connectToPeer, hout,
        handleReconnectArm, guardedBy, guardedByAux, isDescWrite, isGatherComplete]
  · intro hsome
    cases hg : gatheringResolves genv
    · simp [createOffer, hg] at hsome
    · rfl
  · intro hsome
    cases hg : gatheringResolves genv
    · simp [createAnswer, hg] at hsome
    · rfl
  · intro hg e
    constructor <;>
      (cases o <;> cases a <;> cases ol <;> cases al <;> cases dc <;>
        cases hout : isConnectedOutcome (connectionWaitResult cenv).1 <;>
        simp [startConnection, scenario1_FreshStart, scenario2_SecondPeerJoins,
          scenario3_CleanupAndRestart, createOffer, createAnswer, hg, connectToPeer,
          hout, cleanupTrace, handleReconnectArm])

/-- Witness for claim C5 at a concrete environment. -/
theorem claim_C5_complete_descriptions_only_witness :
    (createOffer ⟨GatheringState.gathering, [GatheringState.complete],
        ⟨"v=0", "offer"⟩⟩).2.isSome = true
    ∧ gatheringResolves ⟨GatheringState.gathering, [GatheringState.complete],
        ⟨"v=0", "offer"⟩⟩ = true :=
  ⟨by decide,
   (claim_C5_complete_descriptions_only ⟨false, false, false, none, false⟩
      ⟨GatheringState.gathering, [GatheringState.complete], ⟨"v=0", "offer"⟩⟩
      ⟨ConnState.new, []⟩ ⟨false, false⟩ none none none
      ⟨"v=0", "offer"⟩).2.2.2.1 (by decide)⟩

/-- Claim C8: `endCall` runs the listener cleanup first — no listener
unsubscription ever occurs after the peer connection is closed — then
deletes both store slots of the current room, closes the peer connection,
and stops the local media tracks; replaying its trace leaves both slots
absent, so a subsequent join classifies the room as fresh, while a join
that instead finds an offer written by a still-present rejoining peer
classifies as awaiting-responder. -/
theorem claim_C8_endCall_teardown (st : ModuleState) (s : Store) (k : String)
    (hk : st.currentRoomKey = some k) :
    endCall st =
      cleanupTrace st ++
      [Act.storeRemoveOffer, Act.storeRemoveAnswer, Act.pcClose] ++
      (if st.hasLocalStream then [Act.stopLocalTracks] else []) ++
      [Act.historyPushState, Act.returnToWelcome]
    ∧ neverAfter isUnsubAct isPcCloseAct (endCall st) = true
    ∧ (st.offerListenerActive = true → Act.unsubOfferListener ∈ endCall st)
    ∧ (st.answerListenerActive = true → Act.unsubAnswerListener ∈ endCall st)
    ∧ Act.pcClose ∈ endCall st
    ∧ (st.hasLocalStream = true → Act.stopLocalTracks ∈ endCall st)
    ∧ runStore s (endCall st) = ⟨none, none⟩
    ∧ classify (runStore s (endCall st)).offer (runStore s (endCall st)).answer =
        Branch.freshStart
    ∧ (∀ o2, classify (some o2) none = Branch.secondPeerJoins) := by
  obtain ⟨ol, al, dc, rk, hs⟩ := st
  subst hk
  refine ⟨?_, ?_, ?_, ?_, ?_, ?_, ?_, ?_, fun o2 => rfl⟩
  · cases hs <;> simp [endCall, cleanupTrace]
  · cases ol <;> cases al <;> cases dc <;> cases hs <;>
      simp [endCall, cleanupTrace, neverAfter, neverAfterAux, isUnsubAct,
        isPcCloseAct]
  · intro h
    subst h
    cases al <;> cases dc <;> cases hs <;> simp [endCall, cleanupTrace]
  · intro h
    subst h
    cases ol <;> cases dc <;> cases hs <;> simp [endCall, cleanupTrace]
  · cases ol <;> cases al <;> cases dc <;> cases hs <;>
      simp [endCall, cleanupTrace]
  · intro h
    subst h
    cases ol <;> cases al <;> cases dc <;> simp [endCall, cleanupTrace]
  · cases ol <;> cases al <;> cases dc <;> cases hs <;>
      simp [endCall, cleanupTrace, runStore, applyAct]
  · cases ol <;> cases al <;> cases dc <;> cases hs <;>
      simp [endCall, cleanupTrace, runStore, applyAct, classify]

/-- Witness for claim C8 at a concrete module state with a room joined. -/
theorem claim_C8_endCall_teardown_witness :
    runStore ⟨some ⟨"sdpO", "offer"⟩, some ⟨"sdpA", "answer"⟩⟩
      (endCall ⟨true, true, true, some "alice-beach", true⟩) = ⟨none, none⟩ :=
  (claim_C8_endCall_teardown ⟨true, true, true, some "alice-beach", true⟩
    ⟨some ⟨"sdpO", "offer"⟩, some ⟨"sdpA", "answer"⟩⟩ "alice-beach"
    rfl).2.2.2.2.2.2.1
